import Mathlib

/-!
Shallow embedding of the odometry core of the `open3d_slam` /
`m545_volumetric_mapping` repository, together with proofs about it.

Part 1 embeds `LidarOdometry::addRangeScan` (src/open3d_slam/src/Odometry.cpp).
Part 2 embeds the voxelization helpers of
src/m545_volumetric_mapping/src/helpers.cpp (`AccumulatedPoint`, `isInside`,
`voxelizeAroundPosition`).

Doubles are modelled by exact rationals (ℚ); machine `int` bounds appear
explicitly where the source tests them.
-/

/-- A 3D vector with rational coordinates, modelling `Eigen::Vector3d`. -/
structure Vec3 where
  x : ℚ
  y : ℚ
  z : ℚ
  deriving DecidableEq

instance : Add Vec3 := ⟨fun a b => ⟨a.x + b.x, a.y + b.y, a.z + b.z⟩⟩

instance : Sub Vec3 := ⟨fun a b => ⟨a.x - b.x, a.y - b.y, a.z - b.z⟩⟩

instance : Zero Vec3 := ⟨⟨0, 0, 0⟩⟩

instance : AddCommMonoid Vec3 where
  add := (· + ·)
  zero := 0
  add_assoc a b c := by
    have h : ∀ u v : Vec3, u + v = ⟨u.x + v.x, u.y + v.y, u.z + v.z⟩ := fun u v => rfl
    cases a; cases b; cases c
    simp [h, add_assoc]
  zero_add a := by
    have h : ∀ u v : Vec3, u + v = ⟨u.x + v.x, u.y + v.y, u.z + v.z⟩ := fun u v => rfl
    have hz : (0 : Vec3) = ⟨0, 0, 0⟩ := rfl
    cases a
    simp [h, hz]
  add_zero a := by
    have h : ∀ u v : Vec3, u + v = ⟨u.x + v.x, u.y + v.y, u.z + v.z⟩ := fun u v => rfl
    have hz : (0 : Vec3) = ⟨0, 0, 0⟩ := rfl
    cases a
    simp [h, hz]
  add_comm a b := by
    have h : ∀ u v : Vec3, u + v = ⟨u.x + v.x, u.y + v.y, u.z + v.z⟩ := fun u v => rfl
    cases a; cases b
    simp [h, add_comm]
  nsmul := nsmulRec

/-- Componentwise division of a vector by a scalar (`Eigen` `operator/`). -/
def Vec3.sdiv (v : Vec3) (q : ℚ) : Vec3 := ⟨v.x / q, v.y / q, v.z / q⟩

/-- Componentwise minimum of two vectors. -/
def Vec3.cmin (a b : Vec3) : Vec3 := ⟨min a.x b.x, min a.y b.y, min a.z b.z⟩

/-- Componentwise maximum of two vectors. -/
def Vec3.cmax (a b : Vec3) : Vec3 := ⟨max a.x b.x, max a.y b.y, max a.z b.z⟩

/-- Largest component of a vector (`Eigen` `maxCoeff`). -/
def Vec3.maxCoeff (v : Vec3) : ℚ := max v.x (max v.y v.z)

/-- Models `open3d::geometry::PointCloud`: a point list with optional parallel
normal and color lists.  A normal is `none` when it has a NaN component (NaN
has no rational counterpart; the source only ever tests normals for NaN and
otherwise passes them through or sums them). -/
structure PointCloud where
  points_ : List Vec3
  normals_ : List (Option Vec3)
  colors_ : List Vec3
  deriving DecidableEq

/-- `PointCloud::IsEmpty`: no points stored. -/
def PointCloud.IsEmpty (c : PointCloud) : Bool := c.points_.isEmpty

/-- `PointCloud::HasNormals`: points exist and normals are index-aligned. -/
def PointCloud.HasNormals (c : PointCloud) : Bool :=
  !c.points_.isEmpty && c.normals_.length == c.points_.length

/-- `PointCloud::HasColors`: points exist and colors are index-aligned. -/
def PointCloud.HasColors (c : PointCloud) : Bool :=
  !c.points_.isEmpty && c.colors_.length == c.points_.length

/-- A rigid/homogeneous transform, modelling `Eigen::Matrix4d` (the matrix of
an `Eigen::Isometry3d`). -/
abbrev Transform := Matrix (Fin 4) (Fin 4) ℚ

/-- Matrix inverse over ℚ via the adjugate formula, modelling Eigen
`.inverse()` on a 4×4 matrix (for invertible input this is the true inverse). -/
def matInverse (A : Transform) : Transform := (A.det)⁻¹ • A.adjugate

/-- Timestamps: totally ordered time values compared with `<`. -/
abbrev Time := ℚ

namespace o3d_slam

/-- The part of `open3d::pipelines::registration::RegistrationResult` that
`addRangeScan` reads: the fitness score and the estimated transformation. -/
structure RegistrationResult where
  fitness_ : ℚ
  transformation_ : Transform

/-- Models `LidarOdometryTools` as far as `addRangeScan` consumes it.  The
concrete preprocessing chain (crop → voxelize → `RandomDownSample` → optional
normal estimation) and the external ICP engine
(`open3d::pipelines::registration::RegistrationICP`) live in the external
geometry library, so they are carried as function-valued fields: `preprocess`
maps the raw cloud to the down-sampled cloud, and `registration` maps
(reference cloud, target cloud, seed transform) to a registration result.
Theorems quantify over these fields, so they hold for every behaviour of the
external components. -/
structure LidarOdometryTools where
  minAcceptableFitness_ : ℚ
  icpTransform_ : Transform
  preprocess : PointCloud → PointCloud
  registration : PointCloud → PointCloud → Transform → RegistrationResult

/-- The mutable state of a `LidarOdometry` instance: the reference cloud, the
cumulative odom-to-range-sensor transform, the pose buffer, the last
successfully processed timestamp and the map-initializing flag.  The
`TransformInterpolationBuffer` is modelled from the spec (§4.6: `push`
appends) as a list of timestamped poses, since its own source file is not
among the sources. -/
structure LidarOdometry where
  cloudPrev_ : PointCloud
  odomToRangeSensorCumulative_ : Transform
  odomToRangeSensorBuffer_ : List (Time × Transform)
  lastMeasurementTimestamp_ : Time
  isMapInitializing_ : Bool

/-- Modelled from the spec: the freshly constructed and configured
`LidarOdometry` (the member initializers live in `Odometry.hpp`, which is not
among the sources).  Per §3/§4.5 the reference cloud starts empty, the
cumulative transform is the identity, the buffer is empty, and the mode flag
comes from configuration (`setParameters`).  The initial last-measurement
timestamp is irrelevant: it is never read before it is first written. -/
def initState (isMapInitializing : Bool) : LidarOdometry where
  cloudPrev_ := ⟨[], [], []⟩
  odomToRangeSensorCumulative_ := 1
  odomToRangeSensorBuffer_ := []
  lastMeasurementTimestamp_ := 0
  isMapInitializing_ := isMapInitializing

/-- `LidarOdometry::addRangeScan` (Odometry.cpp, lines 35–91), embedded as a
state transformer returning the boolean result and the new state.  The two
tool sets are the `scanToScanOdomTools_` and `mapInitializingOdomTools_`
members; they are only read by this function, so they are passed as
parameters. -/
def addRangeScan (scanToScanOdomTools mapInitializingOdomTools : LidarOdometryTools)
    (s : LidarOdometry) (cloud : PointCloud) (timestamp : Time) :
    Bool × LidarOdometry :=
  if s.cloudPrev_.IsEmpty then
    (true, { s with
      cloudPrev_ := cloud
      odomToRangeSensorBuffer_ :=
        s.odomToRangeSensorBuffer_ ++ [(timestamp, s.odomToRangeSensorCumulative_)]
      lastMeasurementTimestamp_ := timestamp })
  else if timestamp < s.lastMeasurementTimestamp_ then
    (false, s)
  else
    let tools := if s.isMapInitializing_ then mapInitializingOdomTools else scanToScanOdomTools
    let downSampledCloud := tools.preprocess cloud
    let result := tools.registration s.cloudPrev_ downSampledCloud tools.icpTransform_
    let isOdomOkay : Bool := decide (result.fitness_ > tools.minAcceptableFitness_)
    if !isOdomOkay then
      if !downSampledCloud.IsEmpty then
        (false, { s with cloudPrev_ := downSampledCloud })
      else
        (false, s)
    else
      let isMapInitializing := if s.isMapInitializing_ then false else s.isMapInitializing_
      let odomToRangeSensorCumulative :=
        s.odomToRangeSensorCumulative_ * matInverse result.transformation_
      (true, { s with
        isMapInitializing_ := isMapInitializing
        odomToRangeSensorCumulative_ := odomToRangeSensorCumulative
        cloudPrev_ := downSampledCloud
        odomToRangeSensorBuffer_ :=
          s.odomToRangeSensorBuffer_ ++ [(timestamp, odomToRangeSensorCumulative)]
        lastMeasurementTimestamp_ := timestamp })

end o3d_slam

namespace m545_mapping

/-- `std::numeric_limits<int>::max()` for 32-bit `int`, as a rational. -/
def intMax : ℚ := 2147483647

/-- Voxel grid index, modelling `Eigen::Vector3i`. -/
abbrev Vec3i := ℤ × ℤ × ℤ

/-- Models `open3d::geometry::AxisAlignedBoundingBox` as far as the helpers
read it: its min and max bound. -/
structure AxisAlignedBoundingBox where
  min_bound_ : Vec3
  max_bound_ : Vec3
  deriving DecidableEq

/-- `isInside` (helpers.cpp, lines 141–144): the point is componentwise below
or at the max bound and above or at the min bound (all bounds inclusive). -/
def isInside (bbox : AxisAlignedBoundingBox) (p : Vec3) : Bool :=
  decide (p.x ≤ bbox.max_bound_.x) && decide (p.y ≤ bbox.max_bound_.y) &&
    decide (p.z ≤ bbox.max_bound_.z) && decide (p.x ≥ bbox.min_bound_.x) &&
    decide (p.y ≥ bbox.min_bound_.y) && decide (p.z ≥ bbox.min_bound_.z)

/-- Modelled from the spec: `computeVoxelBounds` is declared in `Voxel.hpp`
and its definition is not among the sources.  Spec §4.1: the grid is
"anchored at the cloud's bounding box minimum", so the voxel bounds are the
cloud's bounding box — componentwise min and max over all points (the zero
vector for an empty cloud).  The voxel-size parameter is kept for signature
parity. -/
def computeVoxelBounds (cloud : PointCloud) (voxelSize : Vec3) : Vec3 × Vec3 :=
  (cloud.points_.foldl Vec3.cmin (cloud.points_.headD 0),
   cloud.points_.foldl Vec3.cmax (cloud.points_.headD 0))

/-- Modelled from the spec: `getVoxelIdx` is declared in `Voxel.hpp` and its
definition is not among the sources.  Spec §4.1: points are bucketed by
"integer-floor quantization by voxel size" on a grid anchored at the voxel
min bound, so the index is the componentwise floor of
(p − voxelMinBound) / voxelSize.  The max bound is kept for signature
parity. -/
def getVoxelIdx (p : Vec3) (voxelSize : Vec3) (voxelMinBound voxelMaxBound : Vec3) : Vec3i :=
  (Rat.floor ((p.x - voxelMinBound.x) / voxelSize.x),
   Rat.floor ((p.y - voxelMinBound.y) / voxelSize.y),
   Rat.floor ((p.z - voxelMinBound.z) / voxelSize.z))

/-- The accumulator of `VoxelDownSample`-style averaging (helpers.cpp,
lines 28–67): running sums of positions, valid normals and colors, and the
count of accumulated points.  The default constructor zeroes everything. -/
structure AccumulatedPoint where
  num_of_points_ : ℤ
  point_ : Vec3
  normal_ : Vec3
  color_ : Vec3
  deriving DecidableEq

/-- The default-constructed `AccumulatedPoint`: zero count, zero sums. -/
def AccumulatedPoint.init : AccumulatedPoint := ⟨0, 0, 0, 0⟩

/-- `AccumulatedPoint::AddPoint` (helpers.cpp, lines 35–47).  The source reads
`cloud.points_[index]`, `cloud.normals_[index]` and `cloud.colors_[index]`;
here the row at that index is passed directly together with the cloud's
`HasNormals`/`HasColors` flags.  A `none` normal models a normal with a NaN
component and is skipped, exactly as the `std::isnan` test skips it; the
point count is incremented for every point regardless. -/
def AccumulatedPoint.AddPoint (hasNormals hasColors : Bool) (acc : AccumulatedPoint)
    (p : Vec3) (nrm : Option Vec3) (col : Vec3) : AccumulatedPoint where
  num_of_points_ := acc.num_of_points_ + 1
  point_ := acc.point_ + p
  normal_ := acc.normal_ +
    (if hasNormals then (match nrm with | some n => n | none => 0) else 0)
  color_ := acc.color_ + (if hasColors then col else 0)

/-- `AccumulatedPoint::GetAveragePoint` (helpers.cpp, lines 49–51): position
sum divided by the number of accumulated points. -/
def AccumulatedPoint.GetAveragePoint (acc : AccumulatedPoint) : Vec3 :=
  acc.point_.sdiv (acc.num_of_points_ : ℚ)

/-- `AccumulatedPoint::GetAverageNormal` (helpers.cpp, lines 53–56): the sum
of the valid (non-NaN) normals divided by the TOTAL number of accumulated
points (the source comments that `NormalizeNormals()` should be called
afterwards if necessary). -/
def AccumulatedPoint.GetAverageNormal (acc : AccumulatedPoint) : Vec3 :=
  acc.normal_.sdiv (acc.num_of_points_ : ℚ)

/-- `AccumulatedPoint::GetAverageColor` (helpers.cpp, lines 58–60). -/
def AccumulatedPoint.GetAverageColor (acc : AccumulatedPoint) : Vec3 :=
  acc.color_.sdiv (acc.num_of_points_ : ℚ)

/-- A row of a cloud: position, normal (`none` = NaN component), color. -/
abbrev Row := Vec3 × Option Vec3 × Vec3

/-- The indexed rows of a cloud: each point paired with the normal and color
at the same index when the parallel arrays are aligned
(`HasNormals`/`HasColors`), and with dummy values otherwise — the source
never reads `normals_[i]`/`colors_[i]` unless the corresponding flag holds. -/
def rows (c : PointCloud) : List Row :=
  c.points_.zip
    ((if c.HasNormals then c.normals_ else List.replicate c.points_.length none).zip
     (if c.HasColors then c.colors_ else List.replicate c.points_.length 0))

/-- The state threaded through the point loop of `voxelizeAroundPosition`:
the output point/normal/color arrays built so far and the
`voxelindex_to_accpoint` map, modelled as an association list with distinct
keys in first-insertion order (the `std::unordered_map` iteration order is
unspecified; first-insertion order is one concrete model of it). -/
structure VoxState where
  outP : List Vec3
  outN : List (Option Vec3)
  outC : List Vec3
  m : List (Vec3i × AccumulatedPoint)

/-- `voxelindex_to_accpoint[voxelIdx].AddPoint(cloud, i)`: `operator[]`
default-constructs an `AccumulatedPoint` on a missing key, then `AddPoint`
runs on the entry. -/
def mapAdd (hn hc : Bool) (k : Vec3i) (p : Vec3) (nrm : Option Vec3) (col : Vec3) :
    List (Vec3i × AccumulatedPoint) → List (Vec3i × AccumulatedPoint)
  | [] => [(k, AccumulatedPoint.init.AddPoint hn hc p nrm col)]
  | (k2, a) :: rest =>
    if k2 = k then (k2, a.AddPoint hn hc p nrm col) :: rest
    else (k2, a) :: mapAdd hn hc k p nrm col rest

/-- One iteration of the point loop of `voxelizeAroundPosition` (helpers.cpp,
lines 178–191): an in-box point is accumulated into its voxel; an out-of-box
point is appended verbatim to the output (with its normal and color when the
cloud has them). -/
def voxStep (hn hc : Bool) (bbox : AxisAlignedBoundingBox) (voxelSize : Vec3)
    (voxelMinBound voxelMaxBound : Vec3) (st : VoxState) (r : Row) : VoxState :=
  if isInside bbox r.1 then
    { st with
      m := mapAdd hn hc (getVoxelIdx r.1 voxelSize voxelMinBound voxelMaxBound)
        r.1 r.2.1 r.2.2 st.m }
  else
    { st with
      outP := st.outP ++ [r.1]
      outN := if hn then st.outN ++ [r.2.1] else st.outN
      outC := if hc then st.outC ++ [r.2.2] else st.outC }

/-- `voxelizeAroundPosition` (helpers.cpp, lines 146–204).  Non-positive voxel
size returns the input unchanged; a voxel size too small for the cloud extent
raises the `std::runtime_error`, modelled as `Except.error`; otherwise
out-of-box points pass through and in-box points are accumulated per voxel,
and the averaged voxel points are appended after the pass-through points. -/
def voxelizeAroundPosition (voxel_size : ℚ) (bbox : AxisAlignedBoundingBox)
    (cloud : PointCloud) : Except String PointCloud :=
  if voxel_size ≤ 0 then .ok cloud
  else
    let voxelSize : Vec3 := ⟨voxel_size, voxel_size, voxel_size⟩
    let voxelBounds := computeVoxelBounds cloud voxelSize
    let voxelMinBound := voxelBounds.1
    let voxelMaxBound := voxelBounds.2
    if voxel_size * intMax < (voxelMaxBound - voxelMinBound).maxCoeff then
      .error "[VoxelDownSample] voxel_size is too small."
    else
      let hn := cloud.HasNormals
      let hc := cloud.HasColors
      let st := (rows cloud).foldl
        (voxStep hn hc bbox voxelSize voxelMinBound voxelMaxBound) ⟨[], [], [], []⟩
      .ok
        { points_ := st.outP ++ st.m.map (fun e => e.2.GetAveragePoint)
          normals_ := st.outN ++ (if hn then st.m.map (fun e => some e.2.GetAverageNormal) else [])
          colors_ := st.outC ++ (if hc then st.m.map (fun e => e.2.GetAverageColor) else []) }

/-- Accumulation of a list of rows into one `AccumulatedPoint`, exactly as
consecutive `AddPoint` calls on a default-constructed accumulator do. -/
def accumulate (hn hc : Bool) (rs : List Row) : AccumulatedPoint :=
  rs.foldl (fun acc r => acc.AddPoint hn hc r.1 r.2.1 r.2.2) AccumulatedPoint.init

/-- First-occurrence deduplication: the distinct elements of `l` in order of
first appearance — the key order of the association-list voxel map. -/
def dedupF {α : Type} [DecidableEq α] (l : List α) : List α :=
  l.foldl (fun acc a => if a ∈ acc then acc else acc ++ [a]) []

/-- The rows of a cloud whose point lies outside the box, in input order. -/
def outsideRows (bbox : AxisAlignedBoundingBox) (c : PointCloud) : List Row :=
  (rows c).filter (fun r => !(isInside bbox r.1))

/-- The rows of a cloud whose point lies inside the box, in input order. -/
def insideRows (bbox : AxisAlignedBoundingBox) (c : PointCloud) : List Row :=
  (rows c).filter (fun r => isInside bbox r.1)

/-- A two-point cloud with both points in one voxel, one NaN normal and one
valid normal `(1,0,0)`. -/
def cloudNanPair : PointCloud := ⟨[⟨0, 0, 0⟩, ⟨0, 0, 0⟩], [none, some ⟨1, 0, 0⟩], []⟩

/-- The axis-aligned box `[-10,10]³`. -/
def boxTen : AxisAlignedBoundingBox := ⟨⟨-10, -10, -10⟩, ⟨10, 10, 10⟩⟩

/-- A one-point cloud at the origin, no normals or colors. -/
def cloudOrigin : PointCloud := ⟨[⟨0, 0, 0⟩], [], []⟩

/-- A two-point cloud, one point outside `boxTen` and one inside, with
normals. -/
def cloudInOut : PointCloud :=
  ⟨[⟨20, 0, 0⟩, ⟨0, 0, 0⟩], [some ⟨0, 0, 1⟩, some ⟨1, 0, 0⟩], []⟩

/-- The voxel index `voxelizeAroundPosition` assigns to a row of the given
cloud at the given voxel size. -/
def cloudVoxelIdx (voxel_size : ℚ) (cloud : PointCloud) (r : Row) : Vec3i :=
  getVoxelIdx r.1 ⟨voxel_size, voxel_size, voxel_size⟩
    (computeVoxelBounds cloud ⟨voxel_size, voxel_size, voxel_size⟩).1
    (computeVoxelBounds cloud ⟨voxel_size, voxel_size, voxel_size⟩).2

/-- The occupied voxel indices of the in-box rows, in first-occurrence
order. -/
def occupiedVoxels (voxel_size : ℚ) (bbox : AxisAlignedBoundingBox) (cloud : PointCloud) :
    List Vec3i :=
  dedupF ((insideRows bbox cloud).map (fun r => cloudVoxelIdx voxel_size cloud r))

/-- The accumulator collecting exactly the in-box rows of voxel `k`. -/
def voxelMean (voxel_size : ℚ) (bbox : AxisAlignedBoundingBox) (cloud : PointCloud)
    (k : Vec3i) : AccumulatedPoint :=
  accumulate cloud.HasNormals cloud.HasColors
    ((insideRows bbox cloud).filter (fun r => cloudVoxelIdx voxel_size cloud r = k))

end m545_mapping

namespace o3d_slam

/-- The tool set `addRangeScan` selects (Odometry.cpp, line 49): the
map-initializing tools while the flag is set, the scan-to-scan tools
otherwise. -/
def activeTools (scanToScanOdomTools mapInitializingOdomTools : LidarOdometryTools)
    (s : LidarOdometry) : LidarOdometryTools :=
  if s.isMapInitializing_ then mapInitializingOdomTools else scanToScanOdomTools

/-- The registration result a (non-first, in-order) `addRangeScan` call
computes: the active tools' registration of the stored reference cloud
against the preprocessed incoming cloud, seeded with the active tools'
current ICP transform. -/
def scanResult (scanToScanOdomTools mapInitializingOdomTools : LidarOdometryTools)
    (s : LidarOdometry) (cloud : PointCloud) : RegistrationResult :=
  let tools := activeTools scanToScanOdomTools mapInitializingOdomTools s
  tools.registration s.cloudPrev_ (tools.preprocess cloud) tools.icpTransform_

/-- Feeds a sequence of timestamped scans through `addRangeScan`, keeping the
final state. -/
def runScans (scanToScanOdomTools mapInitializingOdomTools : LidarOdometryTools)
    (scans : List (PointCloud × Time)) (s : LidarOdometry) : LidarOdometry :=
  scans.foldl (fun st sc => (addRangeScan scanToScanOdomTools mapInitializingOdomTools st sc.1 sc.2).2) s

/-- A concrete tool set for witnesses: fitness threshold 0, identity seed,
identity preprocessing, and a registration oracle that always reports
fitness 1 with the identity transformation. -/
def toolsFitnessOne : LidarOdometryTools :=
  ⟨0, 1, id, fun _ _ _ => ⟨1, 1⟩⟩

/-- A concrete tool set for witnesses: fitness threshold 1, so every
registration outcome of `toolsFitnessOne`-style oracles is rejected; its
oracle reports fitness 0 with the identity transformation. -/
def toolsFitnessZero : LidarOdometryTools :=
  ⟨1, 1, id, fun _ _ _ => ⟨0, 1⟩⟩

/-- A concrete one-point cloud for witnesses. -/
def cloudOne : PointCloud := ⟨[⟨1, 2, 3⟩], [], []⟩

/-- A concrete empty cloud for witnesses. -/
def cloudEmpty : PointCloud := ⟨[], [], []⟩

/-- A concrete tool set whose oracle reports fitness exactly equal to the
acceptance threshold (both 1). -/
def toolsFitnessEqual : LidarOdometryTools :=
  ⟨1, 1, id, fun _ _ _ => ⟨1, 1⟩⟩

theorem addRangeScan_first_eq (toolsS toolsI : LidarOdometryTools) (s : LidarOdometry)
    (cloud : PointCloud) (t : Time) (h : s.cloudPrev_.IsEmpty = true) :
    addRangeScan toolsS toolsI s cloud t =
      (true, { s with
        cloudPrev_ := cloud
        odomToRangeSensorBuffer_ :=
          s.odomToRangeSensorBuffer_ ++ [(t, s.odomToRangeSensorCumulative_)]
        lastMeasurementTimestamp_ := t }) := by
  simp [addRangeScan, h]

theorem addRangeScan_outOfOrder_eq (toolsS toolsI : LidarOdometryTools) (s : LidarOdometry)
    (cloud : PointCloud) (t : Time) (h1 : s.cloudPrev_.IsEmpty = false)
    (h2 : t < s.lastMeasurementTimestamp_) :
    addRangeScan toolsS toolsI s cloud t = (false, s) := by
  simp [addRangeScan, h1, h2]

theorem addRangeScan_rejected_eq (toolsS toolsI : LidarOdometryTools) (s : LidarOdometry)
    (cloud : PointCloud) (t : Time) (h1 : s.cloudPrev_.IsEmpty = false)
    (h2 : ¬ t < s.lastMeasurementTimestamp_)
    (hf : ¬ (scanResult toolsS toolsI s cloud).fitness_ >
      (activeTools toolsS toolsI s).minAcceptableFitness_) :
    addRangeScan toolsS toolsI s cloud t =
      (false,
        if ((activeTools toolsS toolsI s).preprocess cloud).IsEmpty = true then s
        else { s with cloudPrev_ := (activeTools toolsS toolsI s).preprocess cloud }) := by
  have hd := decide_eq_false hf
  cases hb : s.isMapInitializing_ <;>
    simp only [scanResult, activeTools, hb, Bool.false_eq_true, if_false, if_true,
      reduceIte] at hd <;>
    simp only [addRangeScan, activeTools, h1, h2, hb, Bool.false_eq_true, if_false, if_true,
      reduceIte, hd, Bool.not_false] <;>
    split <;> simp_all

theorem addRangeScan_accepted_eq (toolsS toolsI : LidarOdometryTools) (s : LidarOdometry)
    (cloud : PointCloud) (t : Time) (h1 : s.cloudPrev_.IsEmpty = false)
    (h2 : ¬ t < s.lastMeasurementTimestamp_)
    (hf : (scanResult toolsS toolsI s cloud).fitness_ >
      (activeTools toolsS toolsI s).minAcceptableFitness_) :
    addRangeScan toolsS toolsI s cloud t =
      (true, {
        cloudPrev_ := (activeTools toolsS toolsI s).preprocess cloud
        odomToRangeSensorCumulative_ := s.odomToRangeSensorCumulative_ *
          matInverse (scanResult toolsS toolsI s cloud).transformation_
        odomToRangeSensorBuffer_ := s.odomToRangeSensorBuffer_ ++
          [(t, s.odomToRangeSensorCumulative_ *
            matInverse (scanResult toolsS toolsI s cloud).transformation_)]
        lastMeasurementTimestamp_ := t
        isMapInitializing_ := false }) := by
  have hd := decide_eq_true hf
  cases hb : s.isMapInitializing_ <;>
    simp only [scanResult, activeTools, hb, Bool.false_eq_true, if_false, if_true,
      reduceIte] at hd <;>
    simp only [addRangeScan, activeTools, scanResult, h1, h2, hb, Bool.false_eq_true, if_false,
      if_true, reduceIte, hd, Bool.not_true]

end o3d_slam

namespace o3d_slam

/-- C1: a call to `addRangeScan` whose timestamp is strictly less than the
last successfully processed timestamp, made while a reference cloud already
exists, returns false and mutates no state at all (the returned state is the
input state, so reference cloud, cumulative transform, buffer, last-processed
timestamp and mode flag are all unchanged).  In particular, for a call
sequence with timestamps `t1 < t2 < t1` from a fresh state — where the second
call was successfully processed, making `t2` the last successfully processed
timestamp, with a non-empty reference stored — the third call returns false
and leaves the buffer size equal to its size after the second call. -/
theorem C1_out_of_order_rejected :
    (∀ (toolsS toolsI : LidarOdometryTools) (s : LidarOdometry) (cloud : PointCloud)
      (t : Time), s.cloudPrev_.IsEmpty = false → t < s.lastMeasurementTimestamp_ →
      addRangeScan toolsS toolsI s cloud t = (false, s)) ∧
    (∀ (toolsS toolsI : LidarOdometryTools) (flag : Bool) (c1 c2 c3 : PointCloud)
      (t1 t2 : Time) (s2 : LidarOdometry), t1 < t2 → c1.IsEmpty = false →
      addRangeScan toolsS toolsI
        (addRangeScan toolsS toolsI (initState flag) c1 t1).2 c2 t2 = (true, s2) →
      s2.cloudPrev_.IsEmpty = false →
      (addRangeScan toolsS toolsI s2 c3 t1).1 = false ∧
      (addRangeScan toolsS toolsI s2 c3 t1).2.odomToRangeSensorBuffer_.length =
        s2.odomToRangeSensorBuffer_.length) := by
  constructor
  · intro toolsS toolsI s cloud t h1 h2
    exact addRangeScan_outOfOrder_eq toolsS toolsI s cloud t h1 h2
  · intro toolsS toolsI flag c1 c2 c3 t1 t2 s2 ht hc1 hcall2 hs2
    rw [addRangeScan_first_eq toolsS toolsI (initState flag) c1 t1 rfl] at hcall2
    set s1 : LidarOdometry := { initState flag with
      cloudPrev_ := c1
      odomToRangeSensorBuffer_ :=
        (initState flag).odomToRangeSensorBuffer_ ++ [(t1, (initState flag).odomToRangeSensorCumulative_)]
      lastMeasurementTimestamp_ := t1 } with hs1
    have h1e : s1.cloudPrev_.IsEmpty = false := hc1
    have h2e : ¬ t2 < s1.lastMeasurementTimestamp_ := not_lt.mpr (le_of_lt ht)
    by_cases hfit : (scanResult toolsS toolsI s1 c2).fitness_ >
        (activeTools toolsS toolsI s1).minAcceptableFitness_
    · rw [addRangeScan_accepted_eq toolsS toolsI s1 c2 t2 h1e h2e hfit] at hcall2
      have hs2e := (Prod.mk.injEq _ _ _ _).mp hcall2
      have hlast : s2.lastMeasurementTimestamp_ = t2 := by
        rw [← hs2e.2]
      have hout := addRangeScan_outOfOrder_eq toolsS toolsI s2 c3 t1 hs2
        (by rw [hlast]; exact ht)
      rw [hout]
      exact ⟨rfl, rfl⟩
    · rw [addRangeScan_rejected_eq toolsS toolsI s1 c2 t2 h1e h2e hfit] at hcall2
      simp at hcall2

/-- C2: the first-ever call to `addRangeScan` (no reference cloud stored yet)
with a non-empty cloud at `t0` returns true, stores the cloud as the
reference, pushes exactly `(t0, identity cumulative transform)` so the buffer
has size 1, records `t0` as last-processed, and — never registering the scan
against anything — produces the same outcome whatever the tool sets are. -/
theorem C2_first_scan (toolsS toolsI toolsS2 toolsI2 : LidarOdometryTools) (flag : Bool)
    (cloud : PointCloud) (t0 : Time) (hcloud : cloud.IsEmpty = false) :
    addRangeScan toolsS toolsI (initState flag) cloud t0 =
      (true, { cloudPrev_ := cloud, odomToRangeSensorCumulative_ := 1,
               odomToRangeSensorBuffer_ := [(t0, 1)], lastMeasurementTimestamp_ := t0,
               isMapInitializing_ := flag }) ∧
    addRangeScan toolsS toolsI (initState flag) cloud t0 =
      addRangeScan toolsS2 toolsI2 (initState flag) cloud t0 := by
  constructor
  · rw [addRangeScan_first_eq toolsS toolsI (initState flag) cloud t0 rfl]
    rfl
  · rw [addRangeScan_first_eq toolsS toolsI (initState flag) cloud t0 rfl,
      addRangeScan_first_eq toolsS2 toolsI2 (initState flag) cloud t0 rfl]

/-- Witness for C2 at `cloud = cloudOne`, `t0 = 5`, flag set. -/
theorem C2_first_scan_witness :
    cloudOne.IsEmpty = false ∧
    addRangeScan toolsFitnessOne toolsFitnessOne (initState true) cloudOne 5 =
      (true, { cloudPrev_ := cloudOne, odomToRangeSensorCumulative_ := 1,
               odomToRangeSensorBuffer_ := [(5, 1)], lastMeasurementTimestamp_ := 5,
               isMapInitializing_ := true }) :=
  ⟨by decide, (C2_first_scan toolsFitnessOne toolsFitnessOne toolsFitnessZero toolsFitnessZero
    true cloudOne 5 (by decide)).1⟩

/-- C3: for a registered scan (reference present, timestamp in order) the call
is accepted exactly when the registration fitness is strictly greater than
the active tool set's acceptance threshold; fitness exactly equal to the
threshold is rejected. -/
theorem C3_acceptance_iff_fitness (toolsS toolsI : LidarOdometryTools) (s : LidarOdometry)
    (cloud : PointCloud) (t : Time) (h1 : s.cloudPrev_.IsEmpty = false)
    (h2 : ¬ t < s.lastMeasurementTimestamp_) :
    ((addRangeScan toolsS toolsI s cloud t).1 = true ↔
      (scanResult toolsS toolsI s cloud).fitness_ >
        (activeTools toolsS toolsI s).minAcceptableFitness_) ∧
    ((scanResult toolsS toolsI s cloud).fitness_ =
        (activeTools toolsS toolsI s).minAcceptableFitness_ →
      (addRangeScan toolsS toolsI s cloud t).1 = false) := by
  have hmain : (addRangeScan toolsS toolsI s cloud t).1 = true ↔
      (scanResult toolsS toolsI s cloud).fitness_ >
        (activeTools toolsS toolsI s).minAcceptableFitness_ := by
    constructor
    · intro htrue
      by_contra hfit
      rw [addRangeScan_rejected_eq toolsS toolsI s cloud t h1 h2 hfit] at htrue
      simp at htrue
    · intro hfit
      rw [addRangeScan_accepted_eq toolsS toolsI s cloud t h1 h2 hfit]
  refine ⟨hmain, fun heq => ?_⟩
  have hfit : ¬ (scanResult toolsS toolsI s cloud).fitness_ >
      (activeTools toolsS toolsI s).minAcceptableFitness_ := by
    rw [heq]; exact lt_irrefl _
  rw [addRangeScan_rejected_eq toolsS toolsI s cloud t h1 h2 hfit]

/-- Witness for C3: with an oracle of fitness 1 against threshold 0 the call
is accepted, and with an oracle of fitness exactly equal to the threshold
(both 1) the call is rejected. -/
theorem C3_acceptance_iff_fitness_witness :
    ((⟨cloudOne, 1, [(0, 1)], 0, false⟩ : LidarOdometry).cloudPrev_.IsEmpty = false ∧
      ¬ (2 : Time) < (⟨cloudOne, 1, [(0, 1)], 0, false⟩ : LidarOdometry).lastMeasurementTimestamp_ ∧
      (addRangeScan toolsFitnessOne toolsFitnessOne
        ⟨cloudOne, 1, [(0, 1)], 0, false⟩ cloudOne 2).1 = true) ∧
    ((addRangeScan toolsFitnessEqual toolsFitnessEqual
        ⟨cloudOne, 1, [(0, 1)], 0, false⟩ cloudOne 2).1 = false) := by
  refine ⟨⟨by decide, by decide, ?_⟩, ?_⟩
  · exact (C3_acceptance_iff_fitness toolsFitnessOne toolsFitnessOne
      ⟨cloudOne, 1, [(0, 1)], 0, false⟩ cloudOne 2 (by decide) (by decide)).1.mpr (by decide)
  · exact (C3_acceptance_iff_fitness toolsFitnessEqual toolsFitnessEqual
      ⟨cloudOne, 1, [(0, 1)], 0, false⟩ cloudOne 2 (by decide) (by decide)).2 (by decide)

/-- C4: a rejected registered scan (fitness not above the threshold) returns
false, replaces the reference cloud with the preprocessed cloud exactly when
that cloud is non-empty (otherwise the reference is unchanged), and leaves
the cumulative transform, the buffer and the last-processed timestamp
unchanged. -/
theorem C4_rejected_scan_effects (toolsS toolsI : LidarOdometryTools) (s : LidarOdometry)
    (cloud : PointCloud) (t : Time) (h1 : s.cloudPrev_.IsEmpty = false)
    (h2 : ¬ t < s.lastMeasurementTimestamp_)
    (hf : ¬ (scanResult toolsS toolsI s cloud).fitness_ >
      (activeTools toolsS toolsI s).minAcceptableFitness_) :
    (addRangeScan toolsS toolsI s cloud t).1 = false ∧
    (addRangeScan toolsS toolsI s cloud t).2.cloudPrev_ =
      (if ((activeTools toolsS toolsI s).preprocess cloud).IsEmpty = true then s.cloudPrev_
       else (activeTools toolsS toolsI s).preprocess cloud) ∧
    (addRangeScan toolsS toolsI s cloud t).2.odomToRangeSensorCumulative_ =
      s.odomToRangeSensorCumulative_ ∧
    (addRangeScan toolsS toolsI s cloud t).2.odomToRangeSensorBuffer_ =
      s.odomToRangeSensorBuffer_ ∧
    (addRangeScan toolsS toolsI s cloud t).2.lastMeasurementTimestamp_ =
      s.lastMeasurementTimestamp_ := by
  rw [addRangeScan_rejected_eq toolsS toolsI s cloud t h1 h2 hf]
  refine ⟨rfl, ?_, ?_, ?_, ?_⟩ <;> split <;> rfl

/-- Witness for C4: threshold 1, oracle fitness 0, non-empty preprocessed
cloud — the call returns false, the reference is replaced, everything else
is untouched. -/
theorem C4_rejected_scan_effects_witness :
    (⟨cloudOne, 1, [(0, 1)], 0, false⟩ : LidarOdometry).cloudPrev_.IsEmpty = false ∧
    ((addRangeScan toolsFitnessZero toolsFitnessZero
        ⟨cloudOne, 1, [(0, 1)], 0, false⟩ cloudOne 2).1 = false ∧
      (addRangeScan toolsFitnessZero toolsFitnessZero
        ⟨cloudOne, 1, [(0, 1)], 0, false⟩ cloudOne 2).2.odomToRangeSensorBuffer_ = [(0, 1)]) := by
  have h := C4_rejected_scan_effects toolsFitnessZero toolsFitnessZero
    ⟨cloudOne, 1, [(0, 1)], 0, false⟩ cloudOne 2 (by decide) (by decide) (by decide)
  exact ⟨by decide, h.1, h.2.2.2.1⟩

/-- C5: an accepted registered scan returns true, right-multiplies the
cumulative transform by the inverse of the registration result's
transformation, replaces the reference cloud with the preprocessed cloud,
pushes `(timestamp, new cumulative transform)` onto the buffer, and records
the timestamp as last-processed. -/
theorem C5_accepted_scan_effects (toolsS toolsI : LidarOdometryTools) (s : LidarOdometry)
    (cloud : PointCloud) (t : Time) (h1 : s.cloudPrev_.IsEmpty = false)
    (h2 : ¬ t < s.lastMeasurementTimestamp_)
    (hf : (scanResult toolsS toolsI s cloud).fitness_ >
      (activeTools toolsS toolsI s).minAcceptableFitness_) :
    addRangeScan toolsS toolsI s cloud t =
      (true, {
        cloudPrev_ := (activeTools toolsS toolsI s).preprocess cloud
        odomToRangeSensorCumulative_ := s.odomToRangeSensorCumulative_ *
          matInverse (scanResult toolsS toolsI s cloud).transformation_
        odomToRangeSensorBuffer_ := s.odomToRangeSensorBuffer_ ++
          [(t, s.odomToRangeSensorCumulative_ *
            matInverse (scanResult toolsS toolsI s cloud).transformation_)]
        lastMeasurementTimestamp_ := t
        isMapInitializing_ := false }) :=
  addRangeScan_accepted_eq toolsS toolsI s cloud t h1 h2 hf

/-- Witness for C5 at a concrete accepted call (fitness 1 against
threshold 0). -/
theorem C5_accepted_scan_effects_witness :
    (⟨cloudOne, 1, [(0, 1)], 0, false⟩ : LidarOdometry).cloudPrev_.IsEmpty = false ∧
    addRangeScan toolsFitnessOne toolsFitnessOne
        ⟨cloudOne, 1, [(0, 1)], 0, false⟩ cloudOne 2 =
      (true, {
        cloudPrev_ := cloudOne
        odomToRangeSensorCumulative_ := 1 * matInverse 1
        odomToRangeSensorBuffer_ := [(0, 1), (2, 1 * matInverse 1)]
        lastMeasurementTimestamp_ := 2
        isMapInitializing_ := false }) :=
  ⟨by decide, C5_accepted_scan_effects toolsFitnessOne toolsFitnessOne
    ⟨cloudOne, 1, [(0, 1)], 0, false⟩ cloudOne 2 (by decide) (by decide) (by decide)⟩

end o3d_slam

namespace o3d_slam

theorem isMapInitializing_false_step (toolsS toolsI : LidarOdometryTools) (s : LidarOdometry)
    (cloud : PointCloud) (t : Time) (hflag : s.isMapInitializing_ = false) :
    (addRangeScan toolsS toolsI s cloud t).2.isMapInitializing_ = false := by
  by_cases he : s.cloudPrev_.IsEmpty = true
  · rw [addRangeScan_first_eq toolsS toolsI s cloud t he]
    exact hflag
  · have he2 : s.cloudPrev_.IsEmpty = false := by
      cases hx : s.cloudPrev_.IsEmpty
      · rfl
      · exact absurd hx he
    by_cases ho : t < s.lastMeasurementTimestamp_
    · rw [addRangeScan_outOfOrder_eq toolsS toolsI s cloud t he2 ho]
      exact hflag
    · by_cases hfit : (scanResult toolsS toolsI s cloud).fitness_ >
          (activeTools toolsS toolsI s).minAcceptableFitness_
      · rw [addRangeScan_accepted_eq toolsS toolsI s cloud t he2 ho hfit]
      · rw [addRangeScan_rejected_eq toolsS toolsI s cloud t he2 ho hfit]
        split <;> exact hflag

theorem isMapInitializing_false_runScans (toolsS toolsI : LidarOdometryTools)
    (scans : List (PointCloud × Time)) (s : LidarOdometry)
    (hflag : s.isMapInitializing_ = false) :
    (runScans toolsS toolsI scans s).isMapInitializing_ = false := by
  induction scans generalizing s with
  | nil => exact hflag
  | cons p rest ih =>
    exact ih _ (isMapInitializing_false_step toolsS toolsI s p.1 p.2 hflag)

/-- C6 counterexample: the claim says a call that is accepted (returns true)
while the map-initializing flag is set clears the flag; but the very first
scan ever received returns true through the first-scan branch and leaves the
flag set. -/
theorem C6_counterexample :
    (initState true).isMapInitializing_ = true ∧
    (addRangeScan toolsFitnessOne toolsFitnessOne (initState true) cloudOne 0).1 = true ∧
    (addRangeScan toolsFitnessOne toolsFitnessOne (initState true) cloudOne 0).2.isMapInitializing_
      = true :=
  ⟨rfl, rfl, rfl⟩

/-- C6 as amended: the transition happens exactly once and irreversibly for
REGISTERED acceptances: the first time a registered scan is accepted while
the flag is set, the flag is cleared, and no later call — in particular no
later rejected scan — ever sets it back; the first-scan branch, however,
returns true without touching the flag. -/
theorem C6_amended_mode_transition :
    (∀ (toolsS toolsI : LidarOdometryTools) (s : LidarOdometry) (cloud : PointCloud) (t : Time),
      s.isMapInitializing_ = true → s.cloudPrev_.IsEmpty = false →
      ¬ t < s.lastMeasurementTimestamp_ →
      (scanResult toolsS toolsI s cloud).fitness_ >
        (activeTools toolsS toolsI s).minAcceptableFitness_ →
      (addRangeScan toolsS toolsI s cloud t).1 = true ∧
      (addRangeScan toolsS toolsI s cloud t).2.isMapInitializing_ = false) ∧
    (∀ (toolsS toolsI : LidarOdometryTools) (s : LidarOdometry) (cloud : PointCloud) (t : Time),
      s.isMapInitializing_ = false →
      (addRangeScan toolsS toolsI s cloud t).2.isMapInitializing_ = false) ∧
    (∀ (toolsS toolsI : LidarOdometryTools) (scans : List (PointCloud × Time))
      (s : LidarOdometry), s.isMapInitializing_ = false →
      (runScans toolsS toolsI scans s).isMapInitializing_ = false) ∧
    (∀ (toolsS toolsI : LidarOdometryTools) (s : LidarOdometry) (cloud : PointCloud) (t : Time),
      s.cloudPrev_.IsEmpty = true →
      (addRangeScan toolsS toolsI s cloud t).2.isMapInitializing_ = s.isMapInitializing_) := by
  refine ⟨?_, ?_, ?_, ?_⟩
  · intro toolsS toolsI s cloud t hflag h1 h2 hfit
    rw [addRangeScan_accepted_eq toolsS toolsI s cloud t h1 h2 hfit]
    exact ⟨rfl, rfl⟩
  · intro toolsS toolsI s cloud t hflag
    exact isMapInitializing_false_step toolsS toolsI s cloud t hflag
  · intro toolsS toolsI scans s hflag
    exact isMapInitializing_false_runScans toolsS toolsI scans s hflag
  · intro toolsS toolsI s cloud t he
    rw [addRangeScan_first_eq toolsS toolsI s cloud t he]

/-- Witness for the amended C6: a concrete registered acceptance while the
flag is set clears it, and a later rejected call does not set it back. -/
theorem C6_amended_mode_transition_witness :
    ((addRangeScan toolsFitnessOne toolsFitnessOne
        ⟨cloudOne, 1, [(0, 1)], 0, true⟩ cloudOne 2).1 = true ∧
      (addRangeScan toolsFitnessOne toolsFitnessOne
        ⟨cloudOne, 1, [(0, 1)], 0, true⟩ cloudOne 2).2.isMapInitializing_ = false) ∧
    (addRangeScan toolsFitnessZero toolsFitnessZero
      ⟨cloudOne, 1, [(0, 1)], 0, false⟩ cloudOne 2).2.isMapInitializing_ = false := by
  constructor
  · exact C6_amended_mode_transition.1 toolsFitnessOne toolsFitnessOne
      ⟨cloudOne, 1, [(0, 1)], 0, true⟩ cloudOne 2 (by decide) (by decide) (by decide) (by decide)
  · exact C6_amended_mode_transition.2.1 toolsFitnessZero toolsFitnessZero
      ⟨cloudOne, 1, [(0, 1)], 0, false⟩ cloudOne 2 (by decide)

theorem runScans_empty_clouds (toolsS toolsI : LidarOdometryTools)
    (scans : List (PointCloud × Time)) (s : LidarOdometry)
    (hs : s.cloudPrev_.IsEmpty = true) (hall : ∀ p ∈ scans, p.1.IsEmpty = true) :
    (runScans toolsS toolsI scans s).odomToRangeSensorBuffer_ =
      s.odomToRangeSensorBuffer_ ++
        scans.map (fun sc => (sc.2, s.odomToRangeSensorCumulative_)) ∧
    (runScans toolsS toolsI scans s).cloudPrev_.IsEmpty = true ∧
    (runScans toolsS toolsI scans s).odomToRangeSensorCumulative_ =
      s.odomToRangeSensorCumulative_ := by
  induction scans generalizing s with
  | nil => exact ⟨by simp [runScans], hs, rfl⟩
  | cons p rest ih =>
    have hrun : runScans toolsS toolsI (p :: rest) s =
        runScans toolsS toolsI rest (addRangeScan toolsS toolsI s p.1 p.2).2 := rfl
    rw [hrun, addRangeScan_first_eq toolsS toolsI s p.1 p.2 hs]
    have hp : p.1.IsEmpty = true := hall p (List.mem_cons_self p rest)
    have hrest : ∀ q ∈ rest, q.1.IsEmpty = true :=
      fun q hq => hall q (List.mem_cons_of_mem p hq)
    have := ih { s with
      cloudPrev_ := p.1
      odomToRangeSensorBuffer_ :=
        s.odomToRangeSensorBuffer_ ++ [(p.2, s.odomToRangeSensorCumulative_)]
      lastMeasurementTimestamp_ := p.2 } hp hrest
    simpa [List.append_assoc] using this

/-- C10: a first-ever call with an empty cloud still returns true and pushes
a pose, but the stored reference stays empty; consequently any call made
while the reference is empty — any cloud, any timestamp, no registration,
whatever the tool sets — returns true, pushes the current (still identity)
cumulative transform, and stores its cloud as the reference, so over any
sequence of empty-cloud scans the buffer grows by one pose `(t, identity)`
per call. -/
theorem C10_empty_first_cloud (toolsS toolsI toolsS2 toolsI2 : LidarOdometryTools)
    (flag : Bool) (t0 : Time) :
    addRangeScan toolsS toolsI (initState flag) cloudEmpty t0 =
      (true, { cloudPrev_ := cloudEmpty, odomToRangeSensorCumulative_ := 1,
               odomToRangeSensorBuffer_ := [(t0, 1)], lastMeasurementTimestamp_ := t0,
               isMapInitializing_ := flag }) ∧
    (∀ (s : LidarOdometry) (cloud : PointCloud) (t : Time), s.cloudPrev_.IsEmpty = true →
      addRangeScan toolsS toolsI s cloud t =
        (true, { s with
          cloudPrev_ := cloud
          odomToRangeSensorBuffer_ :=
            s.odomToRangeSensorBuffer_ ++ [(t, s.odomToRangeSensorCumulative_)]
          lastMeasurementTimestamp_ := t }) ∧
      addRangeScan toolsS toolsI s cloud t = addRangeScan toolsS2 toolsI2 s cloud t) ∧
    (∀ (scans : List (PointCloud × Time)), (∀ p ∈ scans, p.1.IsEmpty = true) →
      (runScans toolsS toolsI scans (initState flag)).odomToRangeSensorBuffer_ =
        scans.map (fun sc => (sc.2, (1 : Transform))) ∧
      (runScans toolsS toolsI scans (initState flag)).cloudPrev_.IsEmpty = true ∧
      (runScans toolsS toolsI scans (initState flag)).odomToRangeSensorCumulative_ = 1) := by
  refine ⟨?_, ?_, ?_⟩
  · rw [addRangeScan_first_eq toolsS toolsI (initState flag) cloudEmpty t0 rfl]
    rfl
  · intro s cloud t hs
    exact ⟨addRangeScan_first_eq toolsS toolsI s cloud t hs,
      by rw [addRangeScan_first_eq toolsS toolsI s cloud t hs,
        addRangeScan_first_eq toolsS2 toolsI2 s cloud t hs]⟩
  · intro scans hall
    have h := runScans_empty_clouds toolsS toolsI scans (initState flag) rfl hall
    simpa [initState] using h

/-- Witness for C10: two empty-cloud scans with out-of-order timestamps
`3, 1` still grow the buffer by one identity pose per call. -/
theorem C10_empty_first_cloud_witness :
    (initState false).cloudPrev_.IsEmpty = true ∧
    (∀ p ∈ [(cloudEmpty, (3 : Time)), (cloudEmpty, (1 : Time))], p.1.IsEmpty = true) ∧
    (runScans toolsFitnessOne toolsFitnessOne
        [(cloudEmpty, (3 : Time)), (cloudEmpty, (1 : Time))]
        (initState false)).odomToRangeSensorBuffer_ =
      [((3 : Time), (1 : Transform)), ((1 : Time), (1 : Transform))] := by
  refine ⟨by decide, by decide, ?_⟩
  have h := (C10_empty_first_cloud toolsFitnessOne toolsFitnessOne toolsFitnessZero
    toolsFitnessZero false 0).2.2 [(cloudEmpty, (3 : Time)), (cloudEmpty, (1 : Time))]
    (by decide)
  simpa using h.1

end o3d_slam

/-- The addition on `Vec3`, spelled out. -/
theorem Vec3.add_def (a b : Vec3) : a + b = ⟨a.x + b.x, a.y + b.y, a.z + b.z⟩ := rfl

/-- The zero vector, spelled out. -/
theorem Vec3.zero_def : (0 : Vec3) = ⟨0, 0, 0⟩ := rfl

/-- The subtraction on `Vec3`, spelled out. -/
theorem Vec3.sub_def (a b : Vec3) : a - b = ⟨a.x - b.x, a.y - b.y, a.z - b.z⟩ := rfl


namespace m545_mapping

/-- C7: for every cloud and positive voxel size, `voxelizeAroundPosition`
raises the size error exactly when the voxel size times the largest
representable `int` is smaller than the largest extent of the cloud's voxel
bounds (so quantized indices would leave the representable range); for all
in-range inputs no such error is raised and a cloud is returned. -/
theorem C7_size_error_guard (voxel_size : ℚ) (bbox : AxisAlignedBoundingBox)
    (cloud : PointCloud) (hpos : 0 < voxel_size) :
    (voxelizeAroundPosition voxel_size bbox cloud =
        Except.error "[VoxelDownSample] voxel_size is too small." ↔
      voxel_size * intMax <
        ((computeVoxelBounds cloud ⟨voxel_size, voxel_size, voxel_size⟩).2 -
          (computeVoxelBounds cloud ⟨voxel_size, voxel_size, voxel_size⟩).1).maxCoeff) ∧
    (¬ voxel_size * intMax <
        ((computeVoxelBounds cloud ⟨voxel_size, voxel_size, voxel_size⟩).2 -
          (computeVoxelBounds cloud ⟨voxel_size, voxel_size, voxel_size⟩).1).maxCoeff →
      ∃ pc, voxelizeAroundPosition voxel_size bbox cloud = Except.ok pc) := by
  have hnle : ¬ voxel_size ≤ 0 := not_le.mpr hpos
  by_cases hover : voxel_size * intMax <
      ((computeVoxelBounds cloud ⟨voxel_size, voxel_size, voxel_size⟩).2 -
        (computeVoxelBounds cloud ⟨voxel_size, voxel_size, voxel_size⟩).1).maxCoeff
  · refine ⟨⟨fun _ => hover, fun _ => ?_⟩, fun h => absurd hover h⟩
    simp [voxelizeAroundPosition, hnle, hover]
  · refine ⟨⟨fun herr => ?_, fun h => absurd h hover⟩, fun _ => ?_⟩
    · exfalso
      simp [voxelizeAroundPosition, hnle, hover] at herr
    · cases hvox : voxelizeAroundPosition voxel_size bbox cloud with
      | error e =>
        exfalso
        simp [voxelizeAroundPosition, hnle, hover] at hvox
      | ok pc => exact ⟨pc, rfl⟩

/-- Witness for C7 at voxel size 1 and a one-point cloud (extent 0, in
range, so the guard does not fire and the call returns a cloud). -/
theorem C7_size_error_guard_witness :
    (0 : ℚ) < 1 ∧
    (¬ (1 : ℚ) * intMax <
        ((computeVoxelBounds cloudOrigin ⟨1, 1, 1⟩).2 -
          (computeVoxelBounds cloudOrigin ⟨1, 1, 1⟩).1).maxCoeff →
      ∃ pc, voxelizeAroundPosition 1 boxTen cloudOrigin = Except.ok pc) :=
  ⟨by decide, (C7_size_error_guard 1 boxTen cloudOrigin (by decide)).2⟩

end m545_mapping

namespace m545_mapping

theorem foldl_AddPoint_num (hn hc : Bool) (rs : List Row) (a : AccumulatedPoint) :
    (rs.foldl (fun acc r => acc.AddPoint hn hc r.1 r.2.1 r.2.2) a).num_of_points_ =
      a.num_of_points_ + rs.length := by
  induction rs generalizing a with
  | nil => simp
  | cons r rest ih =>
    rw [List.foldl_cons, ih]
    simp [AccumulatedPoint.AddPoint]
    ring

theorem foldl_AddPoint_point (hn hc : Bool) (rs : List Row) (a : AccumulatedPoint) :
    (rs.foldl (fun acc r => acc.AddPoint hn hc r.1 r.2.1 r.2.2) a).point_ =
      a.point_ + (rs.map (fun r => r.1)).sum := by
  induction rs generalizing a with
  | nil => simp
  | cons r rest ih =>
    rw [List.foldl_cons, ih]
    simp [AccumulatedPoint.AddPoint, add_assoc]

theorem foldl_AddPoint_normal (hc : Bool) (rs : List Row) (a : AccumulatedPoint) :
    (rs.foldl (fun acc r => acc.AddPoint true hc r.1 r.2.1 r.2.2) a).normal_ =
      a.normal_ + (rs.filterMap (fun r => r.2.1)).sum := by
  induction rs generalizing a with
  | nil => simp
  | cons r rest ih =>
    rw [List.foldl_cons, ih]
    cases hr : r.2.1 with
    | none => simp [AccumulatedPoint.AddPoint, hr, List.filterMap_cons]
    | some n => simp [AccumulatedPoint.AddPoint, hr, List.filterMap_cons, add_assoc]

theorem foldl_AddPoint_color (hn : Bool) (rs : List Row) (a : AccumulatedPoint) :
    (rs.foldl (fun acc r => acc.AddPoint hn true r.1 r.2.1 r.2.2) a).color_ =
      a.color_ + (rs.map (fun r => r.2.2)).sum := by
  induction rs generalizing a with
  | nil => simp
  | cons r rest ih =>
    rw [List.foldl_cons, ih]
    simp [AccumulatedPoint.AddPoint, add_assoc]

/-- C8 counterexample: a voxel accumulating two coincident points, one with a
NaN normal and one with normal `(1,0,0)`, outputs the normal `(1/2,0,0)` —
the valid-normal sum divided by the total point count 2 — whereas the mean of
the valid normals demanded by the claim would be `(1,0,0)`. -/
theorem C8_counterexample :
    voxelizeAroundPosition 1 boxTen cloudNanPair =
      Except.ok ⟨[⟨0, 0, 0⟩], [some ⟨1/2, 0, 0⟩], []⟩ ∧
    ((⟨1/2, 0, 0⟩ : Vec3) ≠ (⟨1, 0, 0⟩ : Vec3)) := by
  constructor
  · norm_num [voxelizeAroundPosition, cloudNanPair, boxTen, computeVoxelBounds, rows,
      PointCloud.HasNormals, PointCloud.HasColors, Vec3.cmin, Vec3.cmax, Vec3.maxCoeff, intMax,
      voxStep, isInside, getVoxelIdx, mapAdd, AccumulatedPoint.init, AccumulatedPoint.AddPoint,
      AccumulatedPoint.GetAveragePoint, AccumulatedPoint.GetAverageNormal,
      AccumulatedPoint.GetAverageColor, Vec3.sdiv, Vec3.add_def, Vec3.zero_def, Vec3.sub_def,
      Rat.floor, List.zip_cons_cons, List.zip_nil_right, List.zip_nil_left, List.replicate,
      List.foldl_cons, List.foldl_nil, Rat.den_ofNat, Rat.num_ofNat]
  · intro h
    have := congrArg Vec3.x h
    norm_num at this

/-- C8 as amended: with normals present, each voxel's output position is the
arithmetic mean of all accumulated positions, and its output normal is the
sum of the valid (non-NaN) normals divided by the TOTAL number of points
accumulated into the voxel — including those whose normal was NaN — computed
independently of the position average. -/
theorem C8_amended_voxel_averages (hc : Bool) (rs : List Row) (hne : rs ≠ []) :
    (accumulate true hc rs).GetAveragePoint =
      ((rs.map (fun (r : Row) => r.1)).sum).sdiv rs.length ∧
    (accumulate true hc rs).GetAverageNormal =
      ((rs.filterMap (fun (r : Row) => r.2.1)).sum).sdiv rs.length := by
  have hnum := foldl_AddPoint_num true hc rs AccumulatedPoint.init
  have hpt := foldl_AddPoint_point true hc rs AccumulatedPoint.init
  have hnrm := foldl_AddPoint_normal hc rs AccumulatedPoint.init
  simp only [AccumulatedPoint.init] at hnum hpt hnrm
  constructor
  · simp [AccumulatedPoint.GetAveragePoint, accumulate, hnum, hpt,
      AccumulatedPoint.init, zero_add]
  · simp [AccumulatedPoint.GetAverageNormal, accumulate, hnum, hnrm,
      AccumulatedPoint.init, zero_add]

/-- Witness for the amended C8: the two rows of `cloudNanPair` give position
mean `(0,0,0)` and normal `(1,0,0)/2`. -/
theorem C8_amended_voxel_averages_witness :
    ([(⟨0, 0, 0⟩, none, 0), ((⟨0, 0, 0⟩ : Vec3), some (⟨1, 0, 0⟩ : Vec3), (0 : Vec3))] :
      List Row) ≠ [] ∧
    (accumulate true false
        [(⟨0, 0, 0⟩, none, 0), ((⟨0, 0, 0⟩ : Vec3), some (⟨1, 0, 0⟩ : Vec3), (0 : Vec3))]).GetAverageNormal =
      ((([(⟨0, 0, 0⟩, none, 0), ((⟨0, 0, 0⟩ : Vec3), some (⟨1, 0, 0⟩ : Vec3), (0 : Vec3))] :
        List Row).filterMap (fun (r : Row) => r.2.1)).sum).sdiv
        ([(⟨0, 0, 0⟩, none, 0), ((⟨0, 0, 0⟩ : Vec3), some (⟨1, 0, 0⟩ : Vec3), (0 : Vec3))] :
          List Row).length :=
  ⟨by decide, (C8_amended_voxel_averages false
    [(⟨0, 0, 0⟩, none, 0), ((⟨0, 0, 0⟩ : Vec3), some (⟨1, 0, 0⟩ : Vec3), (0 : Vec3))]
    (by decide)).2⟩

end m545_mapping

namespace m545_mapping

theorem mem_foldl_dedupStep {α : Type} [DecidableEq α] (l : List α) (acc : List α) (x : α) :
    x ∈ l.foldl (fun acc a => if a ∈ acc then acc else acc ++ [a]) acc ↔
      x ∈ acc ∨ x ∈ l := by
  induction l generalizing acc with
  | nil => simp
  | cons a rest ih =>
    rw [List.foldl_cons, ih]
    by_cases ha : a ∈ acc
    · simp [ha]
      constructor
      · tauto
      · rintro (h | h | h)
        · exact Or.inl h
        · exact Or.inl (h ▸ ha)
        · exact Or.inr h
    · simp [ha, List.mem_append]
      tauto

theorem mem_dedupF {α : Type} [DecidableEq α] (l : List α) (x : α) :
    x ∈ dedupF l ↔ x ∈ l := by
  rw [dedupF, mem_foldl_dedupStep]
  simp

theorem nodup_foldl_dedupStep {α : Type} [DecidableEq α] (l : List α) (acc : List α)
    (hacc : acc.Nodup) :
    (l.foldl (fun acc a => if a ∈ acc then acc else acc ++ [a]) acc).Nodup := by
  induction l generalizing acc with
  | nil => exact hacc
  | cons a rest ih =>
    rw [List.foldl_cons]
    by_cases ha : a ∈ acc
    · rw [if_pos ha]
      exact ih acc hacc
    · rw [if_neg ha]
      exact ih _ (by simp [List.nodup_append, hacc, ha])

theorem nodup_dedupF {α : Type} [DecidableEq α] (l : List α) : (dedupF l).Nodup :=
  nodup_foldl_dedupStep l [] List.nodup_nil

theorem dedupF_append_singleton {α : Type} [DecidableEq α] (l : List α) (a : α) :
    dedupF (l ++ [a]) = if a ∈ l then dedupF l else dedupF l ++ [a] := by
  rw [dedupF, List.foldl_append, List.foldl_cons, List.foldl_nil]
  rw [show l.foldl (fun acc a => if a ∈ acc then acc else acc ++ [a]) [] = dedupF l from rfl]
  by_cases ha : a ∈ l
  · rw [if_pos ((mem_dedupF l a).mpr ha), if_pos ha]
  · rw [if_neg (fun hmem => ha ((mem_dedupF l a).mp hmem)), if_neg ha]

theorem accumulate_append_singleton (hn hc : Bool) (l : List Row) (r : Row) :
    accumulate hn hc (l ++ [r]) =
      (accumulate hn hc l).AddPoint hn hc r.1 r.2.1 r.2.2 := by
  simp [accumulate, List.foldl_append]

theorem mapAdd_not_mem (hn hc : Bool) (k : Vec3i) (p : Vec3) (nrm : Option Vec3) (col : Vec3)
    (ks : List Vec3i) (g : Vec3i → AccumulatedPoint) (hk : k ∉ ks) :
    mapAdd hn hc k p nrm col (ks.map (fun j => (j, g j))) =
      ks.map (fun j => (j, g j)) ++ [(k, AccumulatedPoint.init.AddPoint hn hc p nrm col)] := by
  induction ks with
  | nil => rfl
  | cons j js ih =>
    have hjk : ¬ j = k := fun h => hk (h ▸ List.mem_cons_self j js)
    have hkjs : k ∉ js := fun h => hk (List.mem_cons_of_mem j h)
    simp only [List.map_cons, mapAdd, if_neg hjk, ih hkjs, List.cons_append]

theorem mapAdd_mem (hn hc : Bool) (k : Vec3i) (p : Vec3) (nrm : Option Vec3) (col : Vec3)
    (ks : List Vec3i) (g : Vec3i → AccumulatedPoint) (hnd : ks.Nodup) (hk : k ∈ ks) :
    mapAdd hn hc k p nrm col (ks.map (fun j => (j, g j))) =
      ks.map (fun j => (j, if j = k then (g j).AddPoint hn hc p nrm col else g j)) := by
  induction ks with
  | nil => cases hk
  | cons j js ih =>
    rw [List.nodup_cons] at hnd
    by_cases hjk : j = k
    · subst hjk
      simp only [List.map_cons, mapAdd, eq_self_iff_true, ite_true]
      congr 1
      apply List.map_congr_left
      intro i hi
      have : ¬ i = j := fun h => hnd.1 (h ▸ hi)
      rw [if_neg this]
    · have hkjs : k ∈ js := by
        cases List.mem_cons.mp hk with
        | inl h => exact absurd h.symm hjk
        | inr h => exact h
      simp only [List.map_cons, mapAdd, if_neg hjk, ih hnd.2 hkjs, if_neg hjk]

end m545_mapping

namespace m545_mapping

theorem buildMap_eq (hn hc : Bool) (f : Row → Vec3i) (rs : List Row) :
    rs.foldl (fun m r => mapAdd hn hc (f r) r.1 r.2.1 r.2.2 m) [] =
      (dedupF (rs.map f)).map (fun k =>
        (k, accumulate hn hc (rs.filter (fun r => f r = k)))) := by
  induction rs using List.reverseRecOn with
  | nil => simp [dedupF]
  | append_singleton l r ih =>
    rw [List.foldl_append, List.foldl_cons, List.foldl_nil, ih, List.map_append,
      List.map_singleton, dedupF_append_singleton]
    by_cases hmem : f r ∈ l.map f
    · rw [if_pos hmem]
      rw [mapAdd_mem hn hc (f r) r.1 r.2.1 r.2.2 _ _ (nodup_dedupF _)
        ((mem_dedupF _ _).mpr hmem)]
      apply List.map_congr_left
      intro k hk
      by_cases hkr : k = f r
      · subst hkr
        rw [if_pos rfl, List.filter_append]
        simp only [List.filter_cons, List.filter_nil]
        rw [if_pos (by simp), accumulate_append_singleton]
      · rw [if_neg hkr, List.filter_append]
        simp only [List.filter_cons, List.filter_nil]
        rw [if_neg (by simp; exact fun h => hkr h.symm)]
        simp
    · rw [if_neg hmem]
      rw [mapAdd_not_mem hn hc (f r) r.1 r.2.1 r.2.2 _ _
        (fun h => hmem ((mem_dedupF _ _).mp h))]
      rw [List.map_append, List.map_singleton]
      congr 1
      · apply List.map_congr_left
        intro k hk
        have hkl : k ∈ l.map f := (mem_dedupF _ _).mp hk
        have hkr : ¬ f r = k := fun h => hmem (h ▸ hkl)
        rw [List.filter_append]
        simp only [List.filter_cons, List.filter_nil]
        rw [if_neg (by simpa using hkr)]
        simp
      · have hfil : l.filter (fun r2 => f r2 = f r) = [] := by
          rw [List.filter_eq_nil_iff]
          intro a ha
          simp only [decide_eq_true_eq]
          exact fun h => hmem (h ▸ List.mem_map_of_mem f ha)
        rw [List.filter_append]
        simp only [List.filter_cons, List.filter_nil, hfil]
        rw [if_pos (by simp)]
        simp [accumulate, AccumulatedPoint.init]

end m545_mapping

namespace m545_mapping

theorem voxFold_outP (hn hc : Bool) (bbox : AxisAlignedBoundingBox) (vs minB maxB : Vec3)
    (rs : List Row) (st : VoxState) :
    (rs.foldl (voxStep hn hc bbox vs minB maxB) st).outP =
      st.outP ++ (rs.filter (fun r => !(isInside bbox r.1))).map (fun (r : Row) => r.1) := by
  induction rs generalizing st with
  | nil => simp
  | cons r rest ih =>
    rw [List.foldl_cons, ih]
    by_cases hin : isInside bbox r.1 = true
    · simp [voxStep, hin]
    · simp only [Bool.not_eq_true] at hin
      simp [voxStep, hin]

theorem voxFold_outN (hn hc : Bool) (bbox : AxisAlignedBoundingBox) (vs minB maxB : Vec3)
    (rs : List Row) (st : VoxState) :
    (rs.foldl (voxStep hn hc bbox vs minB maxB) st).outN =
      st.outN ++ (if hn then
        (rs.filter (fun r => !(isInside bbox r.1))).map (fun (r : Row) => r.2.1) else []) := by
  induction rs generalizing st with
  | nil => simp
  | cons r rest ih =>
    rw [List.foldl_cons, ih]
    by_cases hin : isInside bbox r.1 = true
    · simp [voxStep, hin]
    · simp only [Bool.not_eq_true] at hin
      cases hn with
      | true => simp [voxStep, hin]
      | false => simp [voxStep, hin]

theorem voxFold_outC (hn hc : Bool) (bbox : AxisAlignedBoundingBox) (vs minB maxB : Vec3)
    (rs : List Row) (st : VoxState) :
    (rs.foldl (voxStep hn hc bbox vs minB maxB) st).outC =
      st.outC ++ (if hc then
        (rs.filter (fun r => !(isInside bbox r.1))).map (fun (r : Row) => r.2.2) else []) := by
  induction rs generalizing st with
  | nil => simp
  | cons r rest ih =>
    rw [List.foldl_cons, ih]
    by_cases hin : isInside bbox r.1 = true
    · simp [voxStep, hin]
    · simp only [Bool.not_eq_true] at hin
      cases hc with
      | true => simp [voxStep, hin]
      | false => simp [voxStep, hin]

theorem voxFold_m (hn hc : Bool) (bbox : AxisAlignedBoundingBox) (vs minB maxB : Vec3)
    (rs : List Row) (st : VoxState) :
    (rs.foldl (voxStep hn hc bbox vs minB maxB) st).m =
      (rs.filter (fun r => isInside bbox r.1)).foldl
        (fun m r => mapAdd hn hc (getVoxelIdx r.1 vs minB maxB) r.1 r.2.1 r.2.2 m) st.m := by
  induction rs generalizing st with
  | nil => simp
  | cons r rest ih =>
    rw [List.foldl_cons, ih]
    by_cases hin : isInside bbox r.1 = true
    · simp [voxStep, hin]
    · simp only [Bool.not_eq_true] at hin
      simp [voxStep, hin]

end m545_mapping

namespace m545_mapping

/-- C9: for a positive, in-range voxel size, `voxelizeAroundPosition`
partitions the cloud by box membership (tested inclusively): the out-of-box
rows pass through first, unmodified and in input order — positions, and
normals/colors when the cloud has them — and after them the output holds
exactly one entry per occupied voxel, the average of the rows accumulated
into that voxel; only in-box rows take part in the accumulation.  The
occupied-voxel list is duplicate-free and covers exactly the voxel indices of
the in-box rows. -/
theorem C9_box_partition (voxel_size : ℚ) (bbox : AxisAlignedBoundingBox) (cloud : PointCloud)
    (hpos : 0 < voxel_size)
    (hover : ¬ voxel_size * intMax <
      ((computeVoxelBounds cloud ⟨voxel_size, voxel_size, voxel_size⟩).2 -
        (computeVoxelBounds cloud ⟨voxel_size, voxel_size, voxel_size⟩).1).maxCoeff) :
    voxelizeAroundPosition voxel_size bbox cloud = Except.ok {
      points_ := (outsideRows bbox cloud).map (fun (r : Row) => r.1) ++
        (occupiedVoxels voxel_size bbox cloud).map
          (fun k => (voxelMean voxel_size bbox cloud k).GetAveragePoint)
      normals_ := if cloud.HasNormals then
          (outsideRows bbox cloud).map (fun (r : Row) => r.2.1) ++
          (occupiedVoxels voxel_size bbox cloud).map
            (fun k => some (voxelMean voxel_size bbox cloud k).GetAverageNormal)
        else []
      colors_ := if cloud.HasColors then
          (outsideRows bbox cloud).map (fun (r : Row) => r.2.2) ++
          (occupiedVoxels voxel_size bbox cloud).map
            (fun k => (voxelMean voxel_size bbox cloud k).GetAverageColor)
        else [] } ∧
    (occupiedVoxels voxel_size bbox cloud).Nodup ∧
    (∀ k, k ∈ occupiedVoxels voxel_size bbox cloud ↔
      k ∈ (insideRows bbox cloud).map (cloudVoxelIdx voxel_size cloud)) := by
  refine ⟨?_, nodup_dedupF _, fun k => mem_dedupF _ _⟩
  have hnle : ¬ voxel_size ≤ 0 := not_le.mpr hpos
  simp only [voxelizeAroundPosition, hnle, hover, if_false, ite_false]
  rw [Except.ok.injEq, PointCloud.mk.injEq]
  rw [voxFold_outP, voxFold_outN, voxFold_outC, voxFold_m]
  rw [buildMap_eq cloud.HasNormals cloud.HasColors
    (fun r => getVoxelIdx r.1 ⟨voxel_size, voxel_size, voxel_size⟩
      (computeVoxelBounds cloud ⟨voxel_size, voxel_size, voxel_size⟩).1
      (computeVoxelBounds cloud ⟨voxel_size, voxel_size, voxel_size⟩).2)]
  refine ⟨?_, ?_, ?_⟩
  · simp [outsideRows, insideRows, occupiedVoxels, voxelMean, cloudVoxelIdx, List.map_map,
      Function.comp_def]
  · by_cases hhn : cloud.HasNormals = true
    · simp [hhn, outsideRows, insideRows, occupiedVoxels, voxelMean, cloudVoxelIdx,
        List.map_map, Function.comp_def]
    · simp only [Bool.not_eq_true] at hhn
      simp [hhn]
  · by_cases hhc : cloud.HasColors = true
    · simp [hhc, outsideRows, insideRows, occupiedVoxels, voxelMean, cloudVoxelIdx,
        List.map_map, Function.comp_def]
    · simp only [Bool.not_eq_true] at hhc
      simp [hhc]

/-- Witness for C9 at voxel size 1, the box `[-10,10]³` and the two-point
cloud `cloudNanPair` (both points in one voxel, extent 0, in range). -/
theorem C9_box_partition_witness :
    (0 : ℚ) < 1 ∧
    voxelizeAroundPosition 1 boxTen cloudNanPair = Except.ok {
      points_ := (outsideRows boxTen cloudNanPair).map (fun (r : Row) => r.1) ++
        (occupiedVoxels 1 boxTen cloudNanPair).map
          (fun k => (voxelMean 1 boxTen cloudNanPair k).GetAveragePoint)
      normals_ := if cloudNanPair.HasNormals then
          (outsideRows boxTen cloudNanPair).map (fun (r : Row) => r.2.1) ++
          (occupiedVoxels 1 boxTen cloudNanPair).map
            (fun k => some (voxelMean 1 boxTen cloudNanPair k).GetAverageNormal)
        else []
      colors_ := if cloudNanPair.HasColors then
          (outsideRows boxTen cloudNanPair).map (fun (r : Row) => r.2.2) ++
          (occupiedVoxels 1 boxTen cloudNanPair).map
            (fun k => (voxelMean 1 boxTen cloudNanPair k).GetAverageColor)
        else [] } :=
  ⟨by decide, (C9_box_partition 1 boxTen cloudNanPair (by decide)
    (by simp only [cloudNanPair, computeVoxelBounds, List.foldl_cons, List.foldl_nil,
          List.headD, Vec3.cmin, Vec3.cmax, min_self, Vec3.sub_def, sub_self, Vec3.maxCoeff,
          max_self, one_mul, intMax]
        decide)).1⟩

end m545_mapping

namespace o3d_slam

/-- Witness for C1: a concrete out-of-order call (timestamp 1 after
last-processed 2) is dropped with the state unchanged, and in a concrete
`0 < 2 < 0` sequence with all registrations accepted the third call returns
false with the buffer size unchanged. -/
theorem C1_out_of_order_rejected_witness :
    ((⟨cloudOne, 1, [(0, 1)], 2, false⟩ : LidarOdometry).cloudPrev_.IsEmpty = false ∧
      (1 : Time) < 2 ∧
      addRangeScan toolsFitnessOne toolsFitnessOne
        ⟨cloudOne, 1, [(0, 1)], 2, false⟩ cloudOne 1 =
        (false, ⟨cloudOne, 1, [(0, 1)], 2, false⟩)) ∧
    ((addRangeScan toolsFitnessOne toolsFitnessOne
        (addRangeScan toolsFitnessOne toolsFitnessOne
          (addRangeScan toolsFitnessOne toolsFitnessOne (initState false) cloudOne 0).2
          cloudOne 2).2 cloudOne 0).1 = false ∧
      (addRangeScan toolsFitnessOne toolsFitnessOne
        (addRangeScan toolsFitnessOne toolsFitnessOne
          (addRangeScan toolsFitnessOne toolsFitnessOne (initState false) cloudOne 0).2
          cloudOne 2).2 cloudOne 0).2.odomToRangeSensorBuffer_.length =
      (addRangeScan toolsFitnessOne toolsFitnessOne
        (addRangeScan toolsFitnessOne toolsFitnessOne (initState false) cloudOne 0).2
        cloudOne 2).2.odomToRangeSensorBuffer_.length) := by
  refine ⟨⟨by decide, by decide,
    C1_out_of_order_rejected.1 toolsFitnessOne toolsFitnessOne _ cloudOne 1
      (by decide) (by decide)⟩, ?_⟩
  exact C1_out_of_order_rejected.2 toolsFitnessOne toolsFitnessOne false cloudOne cloudOne
    cloudOne 0 2 _ (by decide) (by decide) rfl (by decide)

end o3d_slam
